import Mathlib

/-!
Shallow embedding of `src/app.py` from the machine-maintenance dashboard.

The only routine with reproducible logic is `generate_maintenance_insights`
(app.py lines 16-63).  It builds five stochastic health-decay curves, one
noise-free fitted reference curve, highlights three sampled points on the
fitted curve, and returns a figure path together with a static explanation
string looked up by part name.

Modelling choices:
* Floating point arithmetic is modelled by exact arithmetic: the time axes
  are rational valued (they are finite arithmetic progressions), health
  values are real valued because the decay exponent is a real drawn from
  the interval [2, 5] and the Gaussian noise ranges over all of the reals.
* Randomness is modelled by a `Tape` holding the outcome of every random
  draw the function makes.  `TapeValid` records exactly the support of
  each distribution: `random.uniform(2, 5)` lands in [2, 5],
  `random.randint(250, 350)` in [250, 350], `random.randint(280, 320)`
  in [280, 320], `np.random.normal` is unconstrained, and
  `random.sample(range(k), 3)` yields three pairwise distinct members of
  `range k`.
* `random.sample` raises `ValueError` when the population is smaller than
  the sample size; this is the one failure point of the function, so the
  embedding returns an `Option` that is `none` exactly in that case.
* The figure itself is modelled by the data handed to the plotting calls:
  the five curves, the fitted curve, and the highlighted points, together
  with the saved path and the returned explanation.
-/

/-- Elementwise clip on rationals, modelling `np.clip` on the time axes. -/
def clipQ (x lo hi : ℚ) : ℚ := min (max x lo) hi

/-- Clip on reals, modelling `np.clip` on the health values. -/
noncomputable def clipR (x lo hi : ℝ) : ℝ := min (max x lo) hi

/-- `np.linspace a b n`: `n` evenly spaced points from `a` to `b` inclusive. -/
def linspace (a b : ℚ) (n : ℕ) : List ℚ :=
  (List.range n).map (fun i : ℕ => a + (b - a) * (i : ℚ) / ((n : ℚ) - 1))

/-- `time = np.linspace(0, 350, 100)` (app.py line 18). -/
def timeAxis : List ℚ := linspace 0 350 100

/-- `sampled_time = np.linspace(0, 350, 10)` (app.py line 38). -/
def sampledTime : List ℚ := linspace 0 350 10

/-- The static `EXPLANATIONS` table (app.py lines 7-14). -/
def EXPLANATIONS : List (String × String) :=
  [("Pump", "The pump\x27s health indicator reflects gradual wear initially, followed by accelerated degradation. Regular inspection is critical to ensure optimal performance and prevent failures. The data highlights that pumps often experience a sharp decline in health due to cavitation or seal failures. Additionally, the trends suggest monitoring pressure and flow rate for early detection of issues."),
   ("Bearing", "The bearing shows a steady decay in health with increasing vibration toward the end, signaling the need for lubrication or replacement. Data analysis suggests that overheating or misalignment could contribute to this behavior. Proper alignment and regular inspections can prevent catastrophic failures."),
   ("Belts", "The belts experience minimal wear at the start but degrade rapidly after extended use, likely due to tension or misalignment. Observations indicate that improper tensioning exacerbates this rapid deterioration. Ensuring correct tension and periodic checks can extend their lifespan."),
   ("Motor", "The motor\x27s health trend indicates stable operation initially, with a rapid decline due to overheating or electrical faults. Data trends suggest that monitoring temperature and current can help preempt motor failures. Timely maintenance can mitigate risks and prevent unplanned downtime."),
   ("Compressor", "The compressor demonstrates a slow decline early on, followed by a sharp drop, highlighting potential issues with pressure or seals. The data suggests that regular maintenance of seals and valves can prolong the compressor\x27s lifespan. Additionally, monitoring for abnormal noise and vibrations is recommended."),
   ("Valve", "The valve maintains health initially but deteriorates quickly later, often due to corrosion or mechanical fatigue. The figures show that monitoring fluid pressure and flow rate can provide early failure detection. Regular cleaning and inspection can help avoid operational disruptions.")]

/-- The six part names offered by the dashboard (app.py line 103). -/
def partNames : List String :=
  ["Pump", "Bearing", "Belts", "Motor", "Compressor", "Valve"]

/-- One call worth of random draws made by `generate_maintenance_insights`.
`decay` is the outcome of `random.uniform(2, 5)`; `ruls i` the outcome of
the i-th `random.randint(250, 350)`; `noise i j` the j-th component of the
i-th `np.random.normal(0, 0.02, ...)` array; `sampledRul` the outcome of
`random.randint(280, 320)`; `indices` the outcome of
`random.sample(range(max_index), 3)`. -/
structure Tape where
  decay : ℝ
  ruls : ℕ → ℕ
  noise : ℕ → ℕ → ℝ
  sampledRul : ℕ
  indices : List ℕ

/-- One plotted curve: its (clipped) time samples, its health samples
before and after clipping, and the RUL used to build it. -/
structure Curve where
  times : List ℚ
  healthRaw : List ℝ
  health : List ℝ
  rul : ℕ

instance : Inhabited Curve := ⟨⟨[], [], [], 0⟩⟩

/-- `np.piecewise(time, [time <= rul, time > rul], [lambda t:
initial_health * (1 - (t / rul) ** decay_rate), 0])` at one sample
(app.py lines 28-31), with `initial_health = 1`. -/
noncomputable def piecewiseHealth (d : ℝ) (rul : ℕ) (t : ℚ) : ℝ :=
  if (t : ℝ) ≤ (rul : ℝ) then 1 * (1 - ((t : ℝ) / (rul : ℝ)) ^ d) else 0

/-- One iteration of the `for i in range(5)` loop (app.py lines 22-35):
piecewise decay plus noise, health clipped to [0, 1], time clipped to
[0, rul]. -/
noncomputable def genCurve (d : ℝ) (rul : ℕ) (noise : ℕ → ℝ) : Curve :=
  let raw := (List.range timeAxis.length).map
    (fun j => piecewiseHealth d rul (timeAxis.getD j 0) + noise j)
  { times := timeAxis.map (fun t => clipQ t 0 (rul : ℚ))
    healthRaw := raw
    health := raw.map (fun h => clipR h 0 1)
    rul := rul }

/-- Everything `generate_maintenance_insights` produces: the data handed
to the plotting calls, the saved figure path, and the explanation. -/
structure GenResult where
  curves : List Curve
  fitted : Curve
  max_index : ℕ
  random_indices : List ℕ
  highlights : List (ℚ × ℝ)
  fig_path : String
  explanation : String

/-- The body of `generate_maintenance_insights` (app.py lines 16-63),
assuming `random.sample` does not raise. -/
noncomputable def genBody (part : String) (r : Tape) : GenResult :=
  let curves := (List.range 5).map (fun i => genCurve r.decay (r.ruls i) (r.noise i))
  let sampled_time_clip := sampledTime.map (fun t => clipQ t 0 (r.sampledRul : ℚ))
  let sampled_health := sampledTime.map
    (fun t : ℚ => clipR (1 - ((t : ℝ) / (r.sampledRul : ℝ)) ^ r.decay) 0 1)
  { curves := curves
    fitted :=
      { times := sampled_time_clip
        healthRaw := sampledTime.map
          (fun t : ℚ => 1 - ((t : ℝ) / (r.sampledRul : ℝ)) ^ r.decay)
        health := sampled_health
        rul := r.sampledRul }
    max_index := sampled_time_clip.length / 3
    random_indices := r.indices
    highlights := r.indices.map
      (fun idx => (sampled_time_clip.getD idx 0, sampled_health.getD idx 0))
    fig_path := part ++ "_maintenance_trend.png"
    explanation := (EXPLANATIONS.lookup part).getD "No explanation available for this part." }

/-- `generate_maintenance_insights(part)` given the tape of random draws.
`none` models the `ValueError` that `random.sample(range(max_index), 3)`
raises when `max_index < 3`; otherwise the call succeeds. -/
noncomputable def generate_maintenance_insights (part : String) (r : Tape) :
    Option GenResult :=
  if 3 ≤ (sampledTime.map (fun t => clipQ t 0 (r.sampledRul : ℚ))).length / 3 then
    some (genBody part r)
  else
    none

/-- Support of the random draws: `random.uniform(2, 5)` lies in [2, 5],
each `random.randint(250, 350)` in [250, 350], `random.randint(280, 320)`
in [280, 320], and `random.sample(range(max_index), 3)` returns three
pairwise distinct members of `range max_index` where
`max_index = len(sampled_time_clip) // 3`. -/
def TapeValid (r : Tape) : Prop :=
  (2 ≤ r.decay ∧ r.decay ≤ 5) ∧
  (∀ i < 5, 250 ≤ r.ruls i ∧ r.ruls i ≤ 350) ∧
  (280 ≤ r.sampledRul ∧ r.sampledRul ≤ 320) ∧
  r.indices.length = 3 ∧ r.indices.Nodup ∧
  (∀ x ∈ r.indices,
    x < (sampledTime.map (fun t => clipQ t 0 (r.sampledRul : ℚ))).length / 3)

/-- A concrete tape used to instantiate the theorems below. -/
noncomputable def tape0 : Tape :=
  { decay := 3
    ruls := fun _ => 300
    noise := fun _ _ => 0
    sampledRul := 300
    indices := [0, 1, 2] }

theorem sampledTimeClip_length (r : Tape) :
    (sampledTime.map (fun t => clipQ t 0 (r.sampledRul : ℚ))).length = 10 := by
  rw [List.length_map]; rfl

theorem generate_eq (part : String) (r : Tape) :
    generate_maintenance_insights part r = some (genBody part r) := by
  unfold generate_maintenance_insights
  rw [if_pos]
  rw [sampledTimeClip_length]

theorem tape0_valid : TapeValid tape0 := by
  refine ⟨⟨by norm_num [tape0], by norm_num [tape0]⟩, ?_, ⟨?_, ?_⟩, ?_, ?_, ?_⟩
  · intro i _
    exact ⟨by norm_num [tape0], by norm_num [tape0]⟩
  · norm_num [tape0]
  · norm_num [tape0]
  · rfl
  · decide
  · intro x hx
    rw [sampledTimeClip_length]
    have : x ∈ [0, 1, 2] := hx
    fin_cases this <;> norm_num

theorem getD_map_range {α : Type} (f : ℕ → α) {n j : ℕ} (hj : j < n) (d : α) :
    ((List.range n).map f).getD j d = f j := by
  rw [List.getD_eq_getElem?_getD, List.getElem?_map, List.getElem?_range hj]
  rfl

theorem linspace_length (a b : ℚ) (n : ℕ) : (linspace a b n).length = n := by
  rw [linspace, List.length_map, List.length_range]

theorem timeAxis_length : timeAxis.length = 100 := by
  rw [timeAxis, linspace_length]

theorem sampledTime_length : sampledTime.length = 10 := by
  rw [sampledTime, linspace_length]

theorem timeAxis_getD {j : ℕ} (hj : j < 100) : timeAxis.getD j 0 = 350 * j / 99 := by
  unfold timeAxis linspace
  rw [getD_map_range _ hj]
  norm_num

theorem sampledTime_getD {j : ℕ} (hj : j < 10) : sampledTime.getD j 0 = 350 * j / 9 := by
  unfold sampledTime linspace
  rw [getD_map_range _ hj]
  norm_num

theorem clipR_nonneg (x : ℝ) : 0 ≤ clipR x 0 1 := le_min (le_max_right x 0) zero_le_one

theorem clipR_le_one (x : ℝ) : clipR x 0 1 ≤ 1 := min_le_right _ _

theorem clipQ_nonneg (x hi : ℚ) (h : 0 ≤ hi) : 0 ≤ clipQ x 0 hi := le_min (le_max_right x 0) h

theorem clipQ_le (x hi : ℚ) : clipQ x 0 hi ≤ hi := min_le_right _ _

theorem genCurve_rul (d : ℝ) (rul : ℕ) (noise : ℕ → ℝ) : (genCurve d rul noise).rul = rul := rfl

theorem genCurve_times (d : ℝ) (rul : ℕ) (noise : ℕ → ℝ) :
    (genCurve d rul noise).times = timeAxis.map (fun t => clipQ t 0 (rul : ℚ)) := rfl

theorem genCurve_healthRaw (d : ℝ) (rul : ℕ) (noise : ℕ → ℝ) :
    (genCurve d rul noise).healthRaw =
      (List.range timeAxis.length).map
        (fun j => piecewiseHealth d rul (timeAxis.getD j 0) + noise j) := rfl

theorem genCurve_health (d : ℝ) (rul : ℕ) (noise : ℕ → ℝ) :
    (genCurve d rul noise).health =
      (genCurve d rul noise).healthRaw.map (fun h => clipR h 0 1) := rfl

theorem genBody_curves (part : String) (r : Tape) :
    (genBody part r).curves =
      (List.range 5).map (fun i => genCurve r.decay (r.ruls i) (r.noise i)) := rfl

theorem genBody_fitted_times (part : String) (r : Tape) :
    (genBody part r).fitted.times =
      sampledTime.map (fun t => clipQ t 0 (r.sampledRul : ℚ)) := rfl

theorem genBody_fitted_healthRaw (part : String) (r : Tape) :
    (genBody part r).fitted.healthRaw =
      sampledTime.map (fun t : ℚ => 1 - ((t : ℝ) / (r.sampledRul : ℝ)) ^ r.decay) := rfl

theorem genBody_fitted_health (part : String) (r : Tape) :
    (genBody part r).fitted.health =
      sampledTime.map
        (fun t : ℚ => clipR (1 - ((t : ℝ) / (r.sampledRul : ℝ)) ^ r.decay) 0 1) := rfl

theorem genBody_fitted_rul (part : String) (r : Tape) :
    (genBody part r).fitted.rul = r.sampledRul := rfl

theorem genBody_max_index (part : String) (r : Tape) :
    (genBody part r).max_index =
      (sampledTime.map (fun t => clipQ t 0 (r.sampledRul : ℚ))).length / 3 := rfl

theorem genBody_random_indices (part : String) (r : Tape) :
    (genBody part r).random_indices = r.indices := rfl

theorem genBody_highlights (part : String) (r : Tape) :
    (genBody part r).highlights =
      r.indices.map (fun idx =>
        ((sampledTime.map (fun t => clipQ t 0 (r.sampledRul : ℚ))).getD idx 0,
         (sampledTime.map
           (fun t : ℚ =>
             clipR (1 - ((t : ℝ) / (r.sampledRul : ℝ)) ^ r.decay) 0 1)).getD idx 0)) := rfl

theorem genBody_fig_path (part : String) (r : Tape) :
    (genBody part r).fig_path = part ++ "_maintenance_trend.png" := rfl

theorem genBody_explanation (part : String) (r : Tape) :
    (genBody part r).explanation =
      (EXPLANATIONS.lookup part).getD "No explanation available for this part." := rfl

theorem curves_length (part : String) (r : Tape) : (genBody part r).curves.length = 5 := by
  rw [genBody_curves, List.length_map, List.length_range]

theorem curves_getElem (part : String) (r : Tape) {i : ℕ} (hi : i < 5) :
    (genBody part r).curves[i]? = some (genCurve r.decay (r.ruls i) (r.noise i)) := by
  rw [genBody_curves, List.getElem?_map, List.getElem?_range hi]
  rfl

theorem genCurve_healthRaw_getD (d : ℝ) (rul : ℕ) (noise : ℕ → ℝ) {j : ℕ} (hj : j < 100) :
    (genCurve d rul noise).healthRaw.getD j 0 =
      piecewiseHealth d rul (timeAxis.getD j 0) + noise j := by
  rw [genCurve_healthRaw, timeAxis_length]
  exact getD_map_range _ hj 0

theorem genCurve_healthRaw_length (d : ℝ) (rul : ℕ) (noise : ℕ → ℝ) :
    (genCurve d rul noise).healthRaw.length = 100 := by
  rw [genCurve_healthRaw, List.length_map, List.length_range, timeAxis_length]

theorem lookup_mem {l : List (String × String)} {a b : String}
    (h : l.lookup a = some b) : b ∈ l.map Prod.snd := by
  induction l with
  | nil => simp [List.lookup] at h
  | cons p tl ih =>
    obtain ⟨k, v⟩ := p
    rw [List.lookup_cons] at h
    by_cases hk : (a == k) = true
    · rw [hk] at h
      simp at h
      simp [h]
    · rw [Bool.not_eq_true] at hk
      rw [hk] at h
      simpa using Or.inr (by simpa using ih h)

theorem lookup_none (a : String) (l : List (String × String))
    (h : ∀ p ∈ l, a ≠ p.1) : l.lookup a = none := by
  induction l with
  | nil => rfl
  | cons p tl ih =>
    rw [List.lookup_cons]
    have hne : a ≠ p.1 := h p (by simp)
    have : (a == p.1) = false := beq_eq_false_iff_ne.mpr hne
    rw [this]
    exact ih (fun q hq => h q (by simp [hq]))

/-- C1: every call produces exactly 5 stochastic curves over the 100-point
evenly spaced time axis 0, 350/99, ..., 350; the i-th curve uses its own
RUL drawn from [250, 350], and before clipping its health at the j-th time
sample equals 1 - (t / RUL) ^ decay for t at most RUL and 0 beyond it,
plus the independent noise drawn for that sample; clipping to [0, 1] is
applied afterwards. -/
theorem C1_stochastic_curve_model (part : String) (r : Tape) (hv : TapeValid r) :
    ∃ res, generate_maintenance_insights part r = some res ∧
      res.curves.length = 5 ∧
      timeAxis.length = 100 ∧
      (∀ j, j < 100 → timeAxis.getD j 0 = 350 * j / 99) ∧
      (∀ i, i < 5 → ∃ c, res.curves[i]? = some c ∧
        c.rul = r.ruls i ∧ 250 ≤ c.rul ∧ c.rul ≤ 350 ∧
        c.healthRaw.length = 100 ∧
        (∀ j, j < 100 → c.healthRaw.getD j 0 =
          (if (timeAxis.getD j 0 : ℝ) ≤ (c.rul : ℝ)
            then 1 - ((timeAxis.getD j 0 : ℝ) / (c.rul : ℝ)) ^ r.decay
            else 0) + r.noise i j) ∧
        c.health = c.healthRaw.map (fun h => clipR h 0 1)) := by
  refine ⟨genBody part r, generate_eq part r, curves_length part r, timeAxis_length, ?_, ?_⟩
  · intro j hj
    exact timeAxis_getD hj
  · intro i hi
    refine ⟨genCurve r.decay (r.ruls i) (r.noise i), curves_getElem part r hi,
      genCurve_rul _ _ _, ?_, ?_, genCurve_healthRaw_length _ _ _, ?_,
      genCurve_health _ _ _⟩
    · rw [genCurve_rul]
      exact (hv.2.1 i hi).1
    · rw [genCurve_rul]
      exact (hv.2.1 i hi).2
    · intro j hj
      rw [genCurve_healthRaw_getD r.decay (r.ruls i) (r.noise i) hj, genCurve_rul]
      simp only [piecewiseHealth, one_mul]

/-- Witness for C1 at part Pump and the concrete tape. -/
theorem C1_stochastic_curve_model_witness :
    ∃ res, generate_maintenance_insights "Pump" tape0 = some res ∧
      res.curves.length = 5 ∧
      timeAxis.length = 100 ∧
      (∀ j, j < 100 → timeAxis.getD j 0 = 350 * j / 99) ∧
      (∀ i, i < 5 → ∃ c, res.curves[i]? = some c ∧
        c.rul = tape0.ruls i ∧ 250 ≤ c.rul ∧ c.rul ≤ 350 ∧
        c.healthRaw.length = 100 ∧
        (∀ j, j < 100 → c.healthRaw.getD j 0 =
          (if (timeAxis.getD j 0 : ℝ) ≤ (c.rul : ℝ)
            then 1 - ((timeAxis.getD j 0 : ℝ) / (c.rul : ℝ)) ^ tape0.decay
            else 0) + tape0.noise i j) ∧
        c.health = c.healthRaw.map (fun h => clipR h 0 1)) :=
  C1_stochastic_curve_model "Pump" tape0 tape0_valid

/-- C2: for every curve of a call, the 5 stochastic ones and the fitted
one, every health sample lies in [0, 1] and every time sample lies in
[0, RUL] for that curve. -/
theorem C2_range_invariants (part : String) (r : Tape) :
    ∃ res, generate_maintenance_insights part r = some res ∧
      (∀ c ∈ res.curves, (∀ h ∈ c.health, 0 ≤ h ∧ h ≤ 1) ∧
        (∀ t ∈ c.times, 0 ≤ t ∧ t ≤ (c.rul : ℚ))) ∧
      (∀ h ∈ res.fitted.health, 0 ≤ h ∧ h ≤ 1) ∧
      (∀ t ∈ res.fitted.times, 0 ≤ t ∧ t ≤ (res.fitted.rul : ℚ)) := by
  refine ⟨genBody part r, generate_eq part r, ?_, ?_, ?_⟩
  · intro c hc
    rw [genBody_curves] at hc
    obtain ⟨i, _, rfl⟩ := List.mem_map.mp hc
    constructor
    · intro h hh
      rw [genCurve_health] at hh
      obtain ⟨x, _, rfl⟩ := List.mem_map.mp hh
      exact ⟨clipR_nonneg x, clipR_le_one x⟩
    · intro t ht
      rw [genCurve_times] at ht
      obtain ⟨x, _, rfl⟩ := List.mem_map.mp ht
      rw [genCurve_rul]
      exact ⟨clipQ_nonneg _ _ (by positivity), clipQ_le _ _⟩
  · intro h hh
    rw [genBody_fitted_health] at hh
    obtain ⟨x, _, rfl⟩ := List.mem_map.mp hh
    exact ⟨clipR_nonneg _, clipR_le_one _⟩
  · intro t ht
    rw [genBody_fitted_times] at ht
    obtain ⟨x, _, rfl⟩ := List.mem_map.mp ht
    rw [genBody_fitted_rul]
    exact ⟨clipQ_nonneg _ _ (by positivity), clipQ_le _ _⟩

/-- C3: the fitted reference curve is built from the 10-point evenly
spaced axis 0, 350/9, ..., 350, uses a freshly drawn RUL in [280, 320]
while every stochastic RUL lies in [250, 350], has no added noise (its
health is exactly the clipped decay formula), and its health and time
values are clipped the same way as the stochastic curves. -/
theorem C3_fitted_curve (part : String) (r : Tape) (hv : TapeValid r) :
    ∃ res, generate_maintenance_insights part r = some res ∧
      sampledTime.length = 10 ∧
      (∀ j, j < 10 → sampledTime.getD j 0 = 350 * j / 9) ∧
      res.fitted.rul = r.sampledRul ∧
      280 ≤ res.fitted.rul ∧ res.fitted.rul ≤ 320 ∧
      (∀ c ∈ res.curves, 250 ≤ c.rul ∧ c.rul ≤ 350) ∧
      res.fitted.health =
        sampledTime.map
          (fun t : ℚ => min (max (1 - ((t : ℝ) / (res.fitted.rul : ℝ)) ^ r.decay) 0) 1) ∧
      res.fitted.times = sampledTime.map (fun t => min (max t 0) (res.fitted.rul : ℚ)) := by
  refine ⟨genBody part r, generate_eq part r, sampledTime_length, ?_,
    genBody_fitted_rul part r, ?_, ?_, ?_, ?_, ?_⟩
  · intro j hj
    exact sampledTime_getD hj
  · rw [genBody_fitted_rul]
    exact hv.2.2.1.1
  · rw [genBody_fitted_rul]
    exact hv.2.2.1.2
  · intro c hc
    rw [genBody_curves] at hc
    obtain ⟨i, hi, rfl⟩ := List.mem_map.mp hc
    rw [genCurve_rul]
    exact hv.2.1 i (List.mem_range.mp hi)
  · rw [genBody_fitted_health, genBody_fitted_rul]
    rfl
  · rw [genBody_fitted_times, genBody_fitted_rul]
    rfl

/-- Witness for C3 at part Pump and the concrete tape. -/
theorem C3_fitted_curve_witness :
    ∃ res, generate_maintenance_insights "Pump" tape0 = some res ∧
      sampledTime.length = 10 ∧
      (∀ j, j < 10 → sampledTime.getD j 0 = 350 * j / 9) ∧
      res.fitted.rul = tape0.sampledRul ∧
      280 ≤ res.fitted.rul ∧ res.fitted.rul ≤ 320 ∧
      (∀ c ∈ res.curves, 250 ≤ c.rul ∧ c.rul ≤ 350) ∧
      res.fitted.health =
        sampledTime.map
          (fun t : ℚ =>
            min (max (1 - ((t : ℝ) / (res.fitted.rul : ℝ)) ^ tape0.decay) 0) 1) ∧
      res.fitted.times = sampledTime.map (fun t => min (max t 0) (res.fitted.rul : ℚ)) :=
  C3_fitted_curve "Pump" tape0 tape0_valid

/-- C4: every call selects exactly 3 distinct fitted-curve indices, each
strictly below 10 / 3, and each selected index is marked as a highlighted
sample point of the fitted curve. -/
theorem C4_highlight_selection (part : String) (r : Tape) (hv : TapeValid r) :
    ∃ res, generate_maintenance_insights part r = some res ∧
      res.random_indices.length = 3 ∧
      res.random_indices.Nodup ∧
      (∀ x ∈ res.random_indices, x < 10 / 3) ∧
      res.highlights = res.random_indices.map
        (fun idx => (res.fitted.times.getD idx 0, res.fitted.health.getD idx 0)) := by
  refine ⟨genBody part r, generate_eq part r, ?_, ?_, ?_, ?_⟩
  · rw [genBody_random_indices]
    exact hv.2.2.2.1
  · rw [genBody_random_indices]
    exact hv.2.2.2.2.1
  · rw [genBody_random_indices]
    intro x hx
    have := hv.2.2.2.2.2 x hx
    rwa [sampledTimeClip_length] at this
  · rw [genBody_highlights, genBody_random_indices, genBody_fitted_times,
      genBody_fitted_health]

/-- Witness for C4 at part Pump and the concrete tape. -/
theorem C4_highlight_selection_witness :
    ∃ res, generate_maintenance_insights "Pump" tape0 = some res ∧
      res.random_indices.length = 3 ∧
      res.random_indices.Nodup ∧
      (∀ x ∈ res.random_indices, x < 10 / 3) ∧
      res.highlights = res.random_indices.map
        (fun idx => (res.fitted.times.getD idx 0, res.fitted.health.getD idx 0)) :=
  C4_highlight_selection "Pump" tape0 tape0_valid

/-- C5: for every part in the fixed set, the returned explanation is
exactly the static string stored for that part in EXPLANATIONS. -/
theorem C5_known_part_explanations (r : Tape) :
    (∃ res, generate_maintenance_insights "Pump" r = some res ∧
      res.explanation = "The pump\x27s health indicator reflects gradual wear initially, followed by accelerated degradation. Regular inspection is critical to ensure optimal performance and prevent failures. The data highlights that pumps often experience a sharp decline in health due to cavitation or seal failures. Additionally, the trends suggest monitoring pressure and flow rate for early detection of issues.") ∧
    (∃ res, generate_maintenance_insights "Bearing" r = some res ∧
      res.explanation = "The bearing shows a steady decay in health with increasing vibration toward the end, signaling the need for lubrication or replacement. Data analysis suggests that overheating or misalignment could contribute to this behavior. Proper alignment and regular inspections can prevent catastrophic failures.") ∧
    (∃ res, generate_maintenance_insights "Belts" r = some res ∧
      res.explanation = "The belts experience minimal wear at the start but degrade rapidly after extended use, likely due to tension or misalignment. Observations indicate that improper tensioning exacerbates this rapid deterioration. Ensuring correct tension and periodic checks can extend their lifespan.") ∧
    (∃ res, generate_maintenance_insights "Motor" r = some res ∧
      res.explanation = "The motor\x27s health trend indicates stable operation initially, with a rapid decline due to overheating or electrical faults. Data trends suggest that monitoring temperature and current can help preempt motor failures. Timely maintenance can mitigate risks and prevent unplanned downtime.") ∧
    (∃ res, generate_maintenance_insights "Compressor" r = some res ∧
      res.explanation = "The compressor demonstrates a slow decline early on, followed by a sharp drop, highlighting potential issues with pressure or seals. The data suggests that regular maintenance of seals and valves can prolong the compressor\x27s lifespan. Additionally, monitoring for abnormal noise and vibrations is recommended.") ∧
    (∃ res, generate_maintenance_insights "Valve" r = some res ∧
      res.explanation = "The valve maintains health initially but deteriorates quickly later, often due to corrosion or mechanical fatigue. The figures show that monitoring fluid pressure and flow rate can provide early failure detection. Regular cleaning and inspection can help avoid operational disruptions.") :=
  ⟨⟨genBody "Pump" r, generate_eq "Pump" r, rfl⟩,
   ⟨genBody "Bearing" r, generate_eq "Bearing" r, rfl⟩,
   ⟨genBody "Belts" r, generate_eq "Belts" r, rfl⟩,
   ⟨genBody "Motor" r, generate_eq "Motor" r, rfl⟩,
   ⟨genBody "Compressor" r, generate_eq "Compressor" r, rfl⟩,
   ⟨genBody "Valve" r, generate_eq "Valve" r, rfl⟩⟩

/-- C6: for every part outside the fixed set, the returned explanation is
exactly the default string. -/
theorem C6_unknown_part_default (part : String) (r : Tape)
    (h : part ∉ partNames) :
    ∃ res, generate_maintenance_insights part r = some res ∧
      res.explanation = "No explanation available for this part." := by
  refine ⟨genBody part r, generate_eq part r, ?_⟩
  rw [genBody_explanation]
  have hnone : EXPLANATIONS.lookup part = none := by
    apply lookup_none
    intro p hp he
    apply h
    rw [he]
    fin_cases hp <;> decide
  rw [hnone]
  rfl

/-- Witness for C6: the part Unknown is outside the fixed set and gets
the default explanation. -/
theorem C6_unknown_part_default_witness :
    "Unknown" ∉ partNames ∧
    ∃ res, generate_maintenance_insights "Unknown" tape0 = some res ∧
      res.explanation = "No explanation available for this part." :=
  ⟨by decide, C6_unknown_part_default "Unknown" tape0 (by decide)⟩

/-- C7: each call draws exactly one decay-rate exponent, it lies in
[2, 5], and all six curves of the call (the 5 stochastic curves via
genCurve and the fitted curve) are computed with that same exponent. -/
theorem C7_shared_decay_exponent (part : String) (r : Tape) (hv : TapeValid r) :
    ∃ res, generate_maintenance_insights part r = some res ∧
      2 ≤ r.decay ∧ r.decay ≤ 5 ∧
      (∀ i, i < 5 →
        res.curves[i]? = some (genCurve r.decay (r.ruls i) (r.noise i))) ∧
      res.fitted.health =
        sampledTime.map
          (fun t : ℚ => clipR (1 - ((t : ℝ) / (r.sampledRul : ℝ)) ^ r.decay) 0 1) := by
  refine ⟨genBody part r, generate_eq part r, hv.1.1, hv.1.2, ?_,
    genBody_fitted_health part r⟩
  intro i hi
  exact curves_getElem part r hi

/-- Witness for C7 at part Pump and the concrete tape. -/
theorem C7_shared_decay_exponent_witness :
    ∃ res, generate_maintenance_insights "Pump" tape0 = some res ∧
      2 ≤ tape0.decay ∧ tape0.decay ≤ 5 ∧
      (∀ i, i < 5 →
        res.curves[i]? = some (genCurve tape0.decay (tape0.ruls i) (tape0.noise i))) ∧
      res.fitted.health =
        sampledTime.map
          (fun t : ℚ =>
            clipR (1 - ((t : ℝ) / (tape0.sampledRul : ℝ)) ^ tape0.decay) 0 1) :=
  C7_shared_decay_exponent "Pump" tape0 tape0_valid

/-- C8: the call returns the figure path part_maintenance_trend.png, a
name that depends only on the part and not on the random draws, so
repeated calls for the same part target the same file; for Pump the path
is Pump_maintenance_trend.png. -/
theorem C8_fig_path_by_part (part : String) (r : Tape) :
    ∃ res, generate_maintenance_insights part r = some res ∧
      res.fig_path = part ++ "_maintenance_trend.png" ∧
      (∀ r2 : Tape, ∃ res2, generate_maintenance_insights part r2 = some res2 ∧
        res2.fig_path = res.fig_path) ∧
      (∃ resP, generate_maintenance_insights "Pump" r = some resP ∧
        resP.fig_path = "Pump_maintenance_trend.png") := by
  refine ⟨genBody part r, generate_eq part r, genBody_fig_path part r, ?_, ?_⟩
  · intro r2
    exact ⟨genBody part r2, generate_eq part r2, rfl⟩
  · exact ⟨genBody "Pump" r, generate_eq "Pump" r, rfl⟩

/-- C9: for every part input, known or unknown, the call completes and
returns a result; the explanation is in the worst case the default
string, otherwise an entry of the table. -/
theorem C9_no_exception (part : String) (r : Tape) :
    ∃ res, generate_maintenance_insights part r = some res ∧
      (res.explanation ∈ EXPLANATIONS.map Prod.snd ∨
        res.explanation = "No explanation available for this part.") := by
  refine ⟨genBody part r, generate_eq part r, ?_⟩
  rw [genBody_explanation]
  cases hl : EXPLANATIONS.lookup part with
  | none => right; rfl
  | some s =>
    left
    rw [Option.getD_some]
    exact lookup_mem hl

/-- C10: since the fitted curve has 10 samples and 3 distinct indices are
drawn from range(10 / 3) = range 3, the set of highlighted indices is
exactly the first three points 0, 1, 2 on every call. -/
theorem C10_highlights_always_first_three (part : String) (r : Tape) (hv : TapeValid r) :
    ∃ res, generate_maintenance_insights part r = some res ∧
      res.random_indices.toFinset = {0, 1, 2} := by
  refine ⟨genBody part r, generate_eq part r, ?_⟩
  rw [genBody_random_indices]
  have h3 := hv.2.2.2.1
  have hn := hv.2.2.2.2.1
  have hb : ∀ x ∈ r.indices, x < 3 := by
    intro x hx
    have hlt := hv.2.2.2.2.2 x hx
    rw [sampledTimeClip_length] at hlt
    exact hlt
  have hsub : r.indices.toFinset ⊆ Finset.range 3 := by
    intro x hx
    exact Finset.mem_range.mpr (hb x (List.mem_toFinset.mp hx))
  have hcard : (Finset.range 3).card ≤ r.indices.toFinset.card := by
    rw [List.toFinset_card_of_nodup hn, h3, Finset.card_range]
  rw [Finset.eq_of_subset_of_card_le hsub hcard]
  decide

/-- Witness for C10 at part Pump and the concrete tape. -/
theorem C10_highlights_always_first_three_witness :
    ∃ res, generate_maintenance_insights "Pump" tape0 = some res ∧
      res.random_indices.toFinset = {0, 1, 2} :=
  C10_highlights_always_first_three "Pump" tape0 tape0_valid
